import Mathlib

/-!
Shallow embedding of `plugins/modules/k8s_log.py` (module `k8s_log`,
class `KubernetesLogModule`): the resource-to-log resolution algorithm
(`execute_module`) and the label-selector extractor (`extract_selectors`).

Modelling conventions:
* Python exceptions raised via `self.fail(msg=...)` become
  `Except.error (K8sError.failMsg msg)`; a Python `TypeError` raised by the
  runtime itself becomes `Except.error (K8sError.typeError msg)`.
* Python dicts are association lists in insertion order; attribute access on
  a dynamic-client field (`selector.matchLabels`) is a key lookup returning
  `none` when the key is absent, mirroring `ResourceField.__getattr__`
  returning `None`.
* Python truthiness: `None` and the empty string / dict / list are falsy.
* The external collaborators (API client creation, `find_resource`,
  descriptor `get`, pod listing, log fetch) are a `Cluster` record of
  oracles; every collaborator call the module makes is recorded in a trace
  so that frame claims (which calls happen) can be stated.
-/

/-- Errors surfaced by the module: `failMsg` is `self.fail(msg=...)`;
`typeError` is a `TypeError` raised by the Python runtime. -/
inductive K8sError where
  | failMsg (msg : String)
  | typeError (msg : String)
deriving DecidableEq, Repr

/-- One entry of a `matchExpressions` list: `{key, operator, values}`. -/
structure MatchExpression where
  key : String
  operator : String
  values : List String
deriving DecidableEq, Repr

/-- A value stored under a key of a selector dict: a plain string, a nested
key/value mapping (such as `matchLabels`), or a list of match expressions
(`matchExpressions`). -/
inductive SelectorVal where
  | str (s : String)
  | labels (l : List (String × String))
  | exprs (es : List MatchExpression)
deriving DecidableEq, Repr

/-- A selector is a dict; entries are kept in insertion order, which is the
iteration order of `dict(...).items()` in Python 3. -/
structure Selector where
  entries : List (String × SelectorVal)
deriving DecidableEq, Repr

/-- The `spec` field of a fetched instance: only its optional `selector`
matters to the module. -/
structure InstanceSpec where
  selector : Option Selector
deriving DecidableEq, Repr

/-- A fetched resource instance, as consumed by `extract_selectors`. -/
structure ResourceInstance where
  group : String
  apiVersion : String
  kind : String
  spec : InstanceSpec
deriving DecidableEq, Repr

/-- Attribute access `selector.NAME` on a dynamic-client field: the value at
the key, or `none` when absent. -/
def selAttr (sel : Selector) (k : String) : Option SelectorVal :=
  (sel.entries.find? (fun e => e.1 = k)).map (fun e => e.2)

/-- Python truthiness of a selector value: empty strings, dicts and lists
are falsy. -/
def SelectorVal.truthy : SelectorVal → Bool
  | .str s => !s.isEmpty
  | .labels l => !l.isEmpty
  | .exprs es => !es.isEmpty

/-- Python truthiness of an optional attribute (`None` is falsy). -/
def attrTruthy : Option SelectorVal → Bool
  | none => false
  | some v => v.truthy

/-- Rendering of a selector value under `str.format`, used in the flat
(legacy) branch where values are plain strings. Non-string values get an
unquoted dict/list rendering; no claim depends on those arms. -/
def SelectorVal.pyStr : SelectorVal → String
  | .str s => s
  | .labels l =>
      "\x7b" ++ String.intercalate ", " (l.map (fun kv => kv.1 ++ ": " ++ kv.2)) ++ "\x7d"
  | .exprs es =>
      "[" ++ String.intercalate ", " (es.map (fun e => e.key)) ++ "]"

/-- Python `'/'.join(a, b)` as written in the no-selector failure path of
`extract_selectors`: `str.join` takes exactly one iterable argument, so this
call raises `TypeError` before the enclosing message is built. -/
def strJoin2 (_sep _a _b : String) : Except K8sError String :=
  .error (.typeError "join() takes exactly one argument (2 given)")

/-- The failure path of `extract_selectors` when `instance.spec.selector` is
falsy: the message interpolates `'/'.join(instance.group, instance.apiVersion)`,
whose evaluation precedes the `self.fail` call. -/
def noSelectorFail (inst : ResourceInstance) : Except K8sError (List String) := do
  let joined ← strJoin2 "/" inst.group inst.apiVersion
  .error (.failMsg (joined ++ " " ++ inst.kind ++
    " does not support the log subresource directly, and no Pod selector was found on the object"))

/-- `dict(v).items()` on a value expected to be a mapping; a non-mapping
value raises a `TypeError` at the `dict(...)` conversion. -/
def labelsOf : SelectorVal → Except K8sError (List (String × String))
  | .labels l => .ok l
  | _ => .error (.typeError "cannot convert argument to a dict")

/-- Iterating a value expected to be a list of expression objects; any other
shape fails at attribute access inside the loop. -/
def exprsOf : SelectorVal → Except K8sError (List MatchExpression)
  | .exprs es => .ok es
  | _ => .error (.typeError "matchExpressions is not a list of expressions")

/-- Python `str.lower()` restricted to its effect on ASCII letters, which is
all the operator strings contain; defined structurally on the characters so
that it reduces definitionally. -/
def pyLower (s : String) : String :=
  String.mk (s.data.map Char.toLower)

/-- One iteration of the `matchExpressions` loop of `extract_selectors`:
the clause emitted for one expression, or the unsupported-operator failure. -/
def formatExpr (e : MatchExpression) : Except K8sError String :=
  if e.operator = "Exists" then
    .ok e.key
  else if e.operator = "DoesNotExist" then
    .ok ("!" ++ e.key)
  else if e.operator = "In" ∨ e.operator = "NotIn" then
    .ok (e.key ++ " " ++ pyLower e.operator ++ " (" ++ String.intercalate ", " e.values ++ ")")
  else
    .error (.failMsg ("The k8s_log module does not support the " ++ pyLower e.operator ++
      " matchExpression operator"))

/-- `KubernetesLogModule.extract_selectors`. Branch for branch:
no (falsy) selector fails via `noSelectorFail`; neither `matchLabels` nor
`matchExpressions` truthy treats the selector dict as a flat key/value
mapping and returns immediately; otherwise `matchLabels` clauses are
appended first, then the `matchExpressions` loop runs, stopping at the
first unsupported operator. -/
def extract_selectors (inst : ResourceInstance) : Except K8sError (List String) :=
  match inst.spec.selector with
  | none => noSelectorFail inst
  | some sel =>
    if !(attrTruthy (selAttr sel "matchLabels") || attrTruthy (selAttr sel "matchExpressions")) then
      .ok (sel.entries.map (fun kv => kv.1 ++ "=" ++ kv.2.pyStr))
    else do
      let mls ←
        if attrTruthy (selAttr sel "matchLabels") then do
          let ml ← labelsOf ((selAttr sel "matchLabels").getD (.labels []))
          pure (ml.map (fun kv => kv.1 ++ "=" ++ kv.2))
        else pure []
      let mes ←
        if attrTruthy (selAttr sel "matchExpressions") then do
          let es ← exprsOf ((selAttr sel "matchExpressions").getD (.exprs []))
          es.mapM formatExpr
        else pure []
      pure (mls ++ mes)

/-- A resource descriptor as returned by `find_resource`: the module only
reads its `subresources` (to test `'log' not in resource.subresources`);
`kind` and `apiVersion` identify it in the trace. -/
structure ResourceDescriptor where
  kind : String
  apiVersion : String
  subresources : List String
deriving DecidableEq, Repr

/-- The `metadata` of a listed item; only `name` is read. -/
structure ObjectMeta where
  name : String
deriving DecidableEq, Repr

/-- One item of a list result (`instances.items[i]`). -/
structure PodItem where
  metadata : ObjectMeta
deriving DecidableEq, Repr

/-- A list result (`instances`), with its `items`. -/
structure PodList where
  items : List PodItem
deriving DecidableEq, Repr

/-- The module's parameters after the host tool's argument parsing
(`self.params`), with the argspec defaults (`kind='Pod'`,
`api_version='v1'`, `label_selectors=[]`, the rest `None`). -/
structure Params where
  kind : String
  api_version : String
  name : Option String
  nspace : Option String
  container : Option String
  label_selectors : List String
deriving DecidableEq, Repr

/-- Python truthiness of an optional string parameter (`None` and `''` are
falsy). -/
def optTruthy : Option String → Bool
  | none => false
  | some s => !s.isEmpty

/-- Rendering of an optional string under `str.format` (`None` prints as
`"None"`). -/
def pyFmtOpt : Option String → String
  | none => "None"
  | some s => s

/-- Python `log.split('\n')`: split on every newline character; the result
always has at least one element (`''.split('\n') == ['']`). Defined
structurally so it reduces definitionally. -/
def splitNlAux : List Char → List Char → List String
  | [], acc => [String.mk acc.reverse]
  | c :: cs, acc =>
      if c = '\n' then String.mk acc.reverse :: splitNlAux cs []
      else splitNlAux cs (c :: acc)

/-- Python `log.split('\n')` on a string. -/
def pySplitNl (s : String) : List String :=
  splitNlAux s.data []

/-- The collaborator calls `execute_module` can make, recorded in order in a
trace: client creation, `find_resource`, a descriptor's `get` by name, the
Pod list by label selector, and the log-subresource fetch. -/
inductive Call where
  | getApiClient
  | findRes (kind apiVersion : String)
  | getByName (res : ResourceDescriptor) (name : String) (nspace : Option String)
  | listPods (nspace : Option String) (label_selector : String)
  | logFetch (res : ResourceDescriptor) (name : Option String) (nspace : Option String)
      (container : Option String)
deriving DecidableEq, Repr

/-- Whether a recorded call is a log-subresource fetch. -/
def Call.isLogFetch : Call → Bool
  | .logFetch _ _ _ _ => true
  | _ => false

/-- Whether a recorded call is a get-by-name of an instance. -/
def Call.isGetByName : Call → Bool
  | .getByName _ _ _ => true
  | _ => false

/-- Whether a recorded call is a list-by-selector. -/
def Call.isListPods : Call → Bool
  | .listPods _ _ => true
  | _ => false

/-- The external collaborators, as oracles: `findResource` is the
API-discovery lookup (`find_resource(kind, api_version)`, `None` when the
type is unknown); `getInstance` is `resource.get(name=..., namespace=...)`;
`listPods` is `v1_pods.get(namespace=..., label_selector=...)`; `getLog` is
`resource.log.get(name=..., namespace=..., **kwargs)`. Each fallible oracle
may return an upstream error, which the module surfaces unchanged. -/
structure Cluster where
  findResource : String → String → Option ResourceDescriptor
  getInstance : ResourceDescriptor → String → Option String → Except K8sError ResourceInstance
  listPods : Option String → String → Except K8sError PodList
  getLog : ResourceDescriptor → Option String → Option String → Option String →
      Except K8sError String

/-- The module's success payload:
`self.exit_json(changed=False, log=log, log_lines=log.split('\n'))`. -/
structure ModResult where
  changed : Bool
  log : String
  log_lines : List String
deriving DecidableEq, Repr

/-- The tail of `execute_module` from the `log = resource.log.get(...)` call:
builds `kwargs` (the `container` query parameter only when the parameter is
truthy), fetches the log and exits with the split lines. -/
def logPhase (c : Cluster) (p : Params) (resource : ResourceDescriptor)
    (name : Option String) (tr : List Call) : Except K8sError ModResult × List Call :=
  let container := if optTruthy p.container then p.container else none
  let tr := tr ++ [Call.logFetch resource name p.nspace container]
  match c.getLog resource name p.nspace container with
  | .error e => (.error e, tr)
  | .ok log => (.ok ⟨false, log, pySplitNl log⟩, tr)

/-- The `if label_selector:` block of `execute_module` and what follows: when
the active selector string is non-empty, list Pods in the parameter namespace,
fail when no item matched (naming namespace and selector), otherwise retarget
to the first item's name on the Pod descriptor; then fetch the log. -/
def listAndLog (c : Cluster) (p : Params) (v1_pods resource : ResourceDescriptor)
    (name : Option String) (label_selector : String) (tr : List Call) :
    Except K8sError ModResult × List Call :=
  if !label_selector.isEmpty then
    let tr := tr ++ [Call.listPods p.nspace label_selector]
    match c.listPods p.nspace label_selector with
    | .error e => (.error e, tr)
    | .ok instances =>
      match instances.items with
      | [] =>
          (.error (.failMsg ("No pods in namespace " ++ pyFmtOpt p.nspace ++
            " matched selector " ++ label_selector)), tr)
      | item :: _ => logPhase c p v1_pods (some item.metadata.name) tr
  else
    logPhase c p resource name tr

/-- `KubernetesLogModule.execute_module`, step for step: the name/selector
mutual-exclusion check (before any collaborator call), client creation, the
two `find_resource` lookups (both with `fail=True`), the derived-selector
branch for resources without the log subresource, the selector list branch,
and the log fetch. Returns the module's result together with the ordered
trace of collaborator calls it made. -/
def execute_module (c : Cluster) (p : Params) : Except K8sError ModResult × List Call :=
  let label_selector := String.intercalate "," p.label_selectors
  if optTruthy p.name && !label_selector.isEmpty then
    (.error (.failMsg "Only one of name or label_selectors can be provided"), [])
  else
    let tr := [Call.getApiClient, Call.findRes p.kind p.api_version]
    match c.findResource p.kind p.api_version with
    | none =>
        (.error (.failMsg ("Failed to find exact match for " ++ p.api_version ++ "." ++ p.kind)),
          tr)
    | some resource =>
      let tr := tr ++ [Call.findRes "Pod" "v1"]
      match c.findResource "Pod" "v1" with
      | none => (.error (.failMsg "Failed to find exact match for v1.Pod"), tr)
      | some v1_pods =>
        if "log" ∉ resource.subresources then
          if !optTruthy p.name then
            (.error (.failMsg
              "name must be provided for resources that do not support the log subresource"), tr)
          else
            let nm := p.name.getD ""
            let tr := tr ++ [Call.getByName resource nm p.nspace]
            match c.getInstance resource nm p.nspace with
            | .error e => (.error e, tr)
            | .ok inst =>
              match extract_selectors inst with
              | .error e => (.error e, tr)
              | .ok sels =>
                  listAndLog c p v1_pods v1_pods p.name (String.intercalate "," sels) tr
        else
          listAndLog c p v1_pods resource p.name label_selector tr

deriving instance DecidableEq for Except

/-- The Deployment descriptor of the end-to-end scenario: no subresources,
in particular no log subresource. -/
def deployDesc : ResourceDescriptor := ⟨"Deployment", "v1", []⟩

/-- The built-in v1/Pod descriptor, which supports the log subresource. -/
def podDesc : ResourceDescriptor := ⟨"Pod", "v1", ["log", "status"]⟩

/-- The fetched Deployment instance of the end-to-end scenario: its selector
is the flat mapping app=example. -/
def deployInst : ResourceInstance :=
  ⟨"apps", "v1", "Deployment", ⟨some ⟨[("app", SelectorVal.str "example")]⟩⟩⟩

/-- Concrete cluster for the end-to-end scenario: Deployment and Pod types
are known; the Deployment named example in namespace testing has the flat
selector app=example; listing Pods in testing with selector app=example
returns the single item example-1abcd; that Pod's log is the two-line text. -/
def clusterC1 : Cluster where
  findResource := fun kind api =>
    if kind = "Deployment" ∧ api = "v1" then some deployDesc
    else if kind = "Pod" ∧ api = "v1" then some podDesc
    else none
  getInstance := fun res nm ns =>
    if res = deployDesc ∧ nm = "example" ∧ ns = some "testing" then .ok deployInst
    else .error (.failMsg "resource instance not found")
  listPods := fun ns sel =>
    if ns = some "testing" ∧ sel = "app=example" then .ok ⟨[⟨⟨"example-1abcd"⟩⟩]⟩
    else .ok ⟨[]⟩
  getLog := fun res nm ns cont =>
    if res = podDesc ∧ nm = some "example-1abcd" ∧ ns = some "testing" ∧ cont = none then
      .ok "hello\nworld"
    else .error (.failMsg "log unavailable")

/-- A resource instance with no selector at all on its spec. -/
def noSelectorInst : ResourceInstance := ⟨"apps", "v1", "Deployment", ⟨none⟩⟩

/-- Parameters with a truthy name and `label_selectors = ['']`: the sequence
is non-empty but its comma-join is the empty string. -/
def paramsConflictingEmptyJoin : Params :=
  ⟨"Pod", "v1", some "example-1abcd", some "testing", none, [""]⟩

/-- The trace after the early steps of `execute_module`: client creation and
the two descriptor lookups. -/
def preTrace (p : Params) : List Call :=
  [Call.getApiClient, Call.findRes p.kind p.api_version, Call.findRes "Pod" "v1"]

theorem logPhase_trace (c : Cluster) (p : Params) (r : ResourceDescriptor)
    (name : Option String) (tr : List Call) :
    (logPhase c p r name tr).2 =
      tr ++ [Call.logFetch r name p.nspace (if optTruthy p.container then p.container else none)] := by
  unfold logPhase
  cases h : c.getLog r name p.nspace (if optTruthy p.container then p.container else none) <;>
    simp [h]

theorem listAndLog_empty_selector (c : Cluster) (p : Params)
    (v1_pods resource : ResourceDescriptor) (name : Option String) (tr : List Call) :
    listAndLog c p v1_pods resource name "" tr = logPhase c p resource name tr := by
  unfold listAndLog
  rfl

theorem listAndLog_no_match (c : Cluster) (p : Params)
    (v1_pods resource : ResourceDescriptor) (name : Option String) (s : String)
    (tr : List Call) (hs : s ≠ "")
    (hlist : c.listPods p.nspace s = .ok ⟨[]⟩) :
    listAndLog c p v1_pods resource name s tr =
      (.error (.failMsg ("No pods in namespace " ++ pyFmtOpt p.nspace ++
        " matched selector " ++ s)), tr ++ [Call.listPods p.nspace s]) := by
  unfold listAndLog
  have hne : s.isEmpty = false := by
    cases h : s.isEmpty
    · rfl
    · exact absurd ((String.isEmpty_iff s).mp h) hs
  simp [hne, hlist]

theorem execute_module_log_path (c : Cluster) (p : Params)
    (r pods : ResourceDescriptor)
    (hfr : c.findResource p.kind p.api_version = some r)
    (hfp : c.findResource "Pod" "v1" = some pods)
    (hlog : "log" ∈ r.subresources)
    (hok : optTruthy p.name = false ∨ String.intercalate "," p.label_selectors = "") :
    execute_module c p =
      listAndLog c p pods r p.name (String.intercalate "," p.label_selectors) (preTrace p) := by
  have hcond : (optTruthy p.name && !(String.intercalate "," p.label_selectors).isEmpty) = false := by
    rcases hok with h | h
    · rw [h]; rfl
    · rw [h]; simp [show ("" : String).isEmpty = true from rfl]
  unfold execute_module
  simp only [hcond, Bool.false_eq_true, if_false, hfr, hfp]
  rw [if_neg (by simpa using hlog)]
  rfl

theorem execute_module_derived_path (c : Cluster) (p : Params)
    (r pods : ResourceDescriptor) (inst : ResourceInstance) (sels : List String)
    (hfr : c.findResource p.kind p.api_version = some r)
    (hfp : c.findResource "Pod" "v1" = some pods)
    (hlog : "log" ∉ r.subresources)
    (hname : optTruthy p.name = true)
    (hjoin : String.intercalate "," p.label_selectors = "")
    (hget : c.getInstance r (p.name.getD "") p.nspace = .ok inst)
    (hext : extract_selectors inst = .ok sels) :
    execute_module c p =
      listAndLog c p pods pods p.name (String.intercalate "," sels)
        (preTrace p ++ [Call.getByName r (p.name.getD "") p.nspace]) := by
  have hcond : (optTruthy p.name && !(String.intercalate "," p.label_selectors).isEmpty) = false := by
    rw [hjoin]; simp [show ("" : String).isEmpty = true from rfl]
  unfold execute_module
  simp only [hcond, Bool.false_eq_true, if_false, hfr, hfp]
  rw [if_pos (by simpa using hlog)]
  simp only [hname, Bool.not_true, Bool.false_eq_true, if_false, hget, hext]
  rfl

/-- C1: for TargetSpec kind=Deployment, name=example, namespace=testing,
where the Deployment descriptor lacks the log subresource, its instance's
selector is the flat mapping app=example, listing Pods in testing with
selector app=example returns exactly the item example-1abcd, and that Pod's
log is "hello\nworld", `execute_module` succeeds with
changed=false, log="hello\nworld", log_lines=["hello", "world"]. -/
theorem c1_deployment_end_to_end :
    (execute_module clusterC1 ⟨"Deployment", "v1", some "example", some "testing", none, []⟩).1 =
      .ok ⟨false, "hello\nworld", ["hello", "world"]⟩ := rfl

/-- C2 counterexample: with name set and the non-empty selector sequence
[''], `execute_module` does not fail with the mutual-exclusivity
ConfigurationError; it proceeds, makes collaborator calls, and succeeds. -/
theorem c2_counterexample :
    optTruthy paramsConflictingEmptyJoin.name = true ∧
    paramsConflictingEmptyJoin.label_selectors ≠ [] ∧
    (execute_module clusterC1 paramsConflictingEmptyJoin).1 =
      .ok ⟨false, "hello\nworld", ["hello", "world"]⟩ ∧
    (execute_module clusterC1 paramsConflictingEmptyJoin).2 ≠ [] := by
  refine ⟨rfl, by decide, rfl, by decide⟩

/-- C2 amended: whenever name is truthy and the comma-join of
label_selectors is non-empty (some element is non-empty, or there are at
least two elements), `execute_module` fails with the ConfigurationError
"Only one of name or label_selectors can be provided" with an empty call
trace, i.e. before any collaborator call. -/
theorem c2_name_selector_exclusive (c : Cluster) (p : Params)
    (hname : optTruthy p.name = true)
    (hsel : String.intercalate "," p.label_selectors ≠ "") :
    execute_module c p =
      (.error (.failMsg "Only one of name or label_selectors can be provided"), []) := by
  have hne : (String.intercalate "," p.label_selectors).isEmpty = false := by
    cases h : (String.intercalate "," p.label_selectors).isEmpty
    · rfl
    · exact absurd ((String.isEmpty_iff _).mp h) hsel
  unfold execute_module
  simp [hname, hne]

/-- C2 amended, witness: a concrete conflicting invocation fails before any
collaborator call. -/
theorem c2_name_selector_exclusive_witness :
    optTruthy (some "example") = true ∧
    String.intercalate "," ["app=example"] ≠ "" ∧
    execute_module clusterC1 ⟨"Pod", "v1", some "example", some "testing", none, ["app=example"]⟩ =
      (.error (.failMsg "Only one of name or label_selectors can be provided"), []) :=
  ⟨rfl, by decide,
    c2_name_selector_exclusive clusterC1
      ⟨"Pod", "v1", some "example", some "testing", none, ["app=example"]⟩ rfl (by decide)⟩

/-- C3: on an instance whose spec has no selector at all, extraction fails,
but with the TypeError raised by `'/'.join(instance.group, instance.apiVersion)`
(str.join takes exactly one argument), not with the descriptive message that
names the resource's group/apiVersion and kind: that `self.fail` call is
never reached. -/
theorem c3_no_selector_fails_with_type_error :
    extract_selectors noSelectorInst =
      .error (.typeError "join() takes exactly one argument (2 given)") := rfl

/-- C6: when the selector is present and neither matchLabels nor
matchExpressions is populated (truthy), `extract_selectors` treats the
selector as a flat key/value mapping and returns one clause key=value per
entry, in iteration order, without consulting matchExpressions. -/
theorem c6_flat_selector_branch (inst : ResourceInstance) (sel : Selector)
    (hsel : inst.spec.selector = some sel)
    (hml : attrTruthy (selAttr sel "matchLabels") = false)
    (hme : attrTruthy (selAttr sel "matchExpressions") = false) :
    extract_selectors inst = .ok (sel.entries.map (fun kv => kv.1 ++ "=" ++ kv.2.pyStr)) := by
  unfold extract_selectors
  rw [hsel]
  simp [hml, hme]

/-- C6 witness: a two-entry flat selector yields exactly its two key=value
clauses in order. -/
theorem c6_flat_selector_branch_witness :
    (⟨"apps.openshift.io", "v1", "DeploymentConfig",
        ⟨some ⟨[("app", SelectorVal.str "example"), ("tier", SelectorVal.str "web")]⟩⟩⟩ :
      ResourceInstance).spec.selector =
      some ⟨[("app", SelectorVal.str "example"), ("tier", SelectorVal.str "web")]⟩ ∧
    extract_selectors
      ⟨"apps.openshift.io", "v1", "DeploymentConfig",
        ⟨some ⟨[("app", SelectorVal.str "example"), ("tier", SelectorVal.str "web")]⟩⟩⟩ =
      .ok ["app=example", "tier=web"] := by
  refine ⟨rfl, ?_⟩
  rw [c6_flat_selector_branch
    ⟨"apps.openshift.io", "v1", "DeploymentConfig",
      ⟨some ⟨[("app", SelectorVal.str "example"), ("tier", SelectorVal.str "web")]⟩⟩⟩
    ⟨[("app", SelectorVal.str "example"), ("tier", SelectorVal.str "web")]⟩ rfl rfl rfl]
  rfl

/-- C8: an In / NotIn matchExpressions entry is emitted as
`key in (v1, v2, ...)` / `key notin (v1, v2, ...)`: the operator lowercased,
the values joined with comma-and-space, wrapped in parentheses; in
particular matchExpressions=[(c, In, [x, y])] extracts to ["c in (x, y)"]. -/
theorem c8_in_notin_clause :
    (∀ (k : String) (vs : List String),
      formatExpr ⟨k, "In", vs⟩ = .ok (k ++ " in (" ++ String.intercalate ", " vs ++ ")")) ∧
    (∀ (k : String) (vs : List String),
      formatExpr ⟨k, "NotIn", vs⟩ = .ok (k ++ " notin (" ++ String.intercalate ", " vs ++ ")")) ∧
    extract_selectors
      ⟨"apps", "v1", "Deployment",
        ⟨some ⟨[("matchExpressions", SelectorVal.exprs [⟨"c", "In", ["x", "y"]⟩])]⟩⟩⟩ =
      .ok ["c in (x, y)"] := by
  refine ⟨fun k vs => ?_, fun k vs => ?_, rfl⟩
  · show Except.ok (k ++ " " ++ "in" ++ " (" ++ String.intercalate ", " vs ++ ")") = _
    congr 1
    apply String.ext
    simp
  · show Except.ok (k ++ " " ++ "notin" ++ " (" ++ String.intercalate ", " vs ++ ")") = _
    congr 1
    apply String.ext
    simp

/-- C9: a matchExpressions entry whose operator is none of Exists,
DoesNotExist, In, NotIn makes extraction fail with the unsupported-operator
message naming the operator lowercased; in particular operator Bogus is
reported as "bogus". -/
theorem c9_unsupported_operator (k : String) (vs : List String) (op : String)
    (h1 : op ≠ "Exists") (h2 : op ≠ "DoesNotExist") (h3 : op ≠ "In") (h4 : op ≠ "NotIn") :
    formatExpr ⟨k, op, vs⟩ =
      .error (.failMsg ("The k8s_log module does not support the " ++ pyLower op ++
        " matchExpression operator")) ∧
    extract_selectors
      ⟨"apps", "v1", "Deployment",
        ⟨some ⟨[("matchExpressions", SelectorVal.exprs [⟨"d", "Bogus", []⟩])]⟩⟩⟩ =
      .error (.failMsg "The k8s_log module does not support the bogus matchExpression operator") := by
  refine ⟨?_, rfl⟩
  unfold formatExpr
  rw [if_neg (by simpa using h1), if_neg (by simpa using h2),
    if_neg (by simp [h3, h4])]

/-- C9 witness: the Bogus operator at a concrete key. -/
theorem c9_unsupported_operator_witness :
    ("Bogus" : String) ≠ "Exists" ∧
    formatExpr ⟨"d", "Bogus", []⟩ =
      .error (.failMsg "The k8s_log module does not support the bogus matchExpression operator") := by
  refine ⟨by decide, ?_⟩
  rw [(c9_unsupported_operator "d" [] "Bogus" (by decide) (by decide) (by decide) (by decide)).1]
  rfl

/-- C10: an In / NotIn entry with an empty values list does not fail:
it emits `key in ()` / `key notin ()` with an empty parenthesized list; in
particular matchExpressions=[(c, In, [])] extracts to ["c in ()"]. -/
theorem c10_empty_values_list :
    (∀ k : String, formatExpr ⟨k, "In", []⟩ = .ok (k ++ " in ()")) ∧
    (∀ k : String, formatExpr ⟨k, "NotIn", []⟩ = .ok (k ++ " notin ()")) ∧
    extract_selectors
      ⟨"apps", "v1", "Deployment",
        ⟨some ⟨[("matchExpressions", SelectorVal.exprs [⟨"c", "In", []⟩])]⟩⟩⟩ =
      .ok ["c in ()"] := by
  refine ⟨fun k => ?_, fun k => ?_, rfl⟩
  · show Except.ok (k ++ " " ++ "in" ++ " (" ++ "" ++ ")") = _
    congr 1
    apply String.ext
    simp
  · show Except.ok (k ++ " " ++ "notin" ++ " (" ++ "" ++ ")") = _
    congr 1
    apply String.ext
    simp

/-- C5: when the resolved descriptor supports the log subresource and
label_selectors is empty, `execute_module` performs exactly one log fetch
and no get-by-name and no list-by-selector collaborator call. -/
theorem c5_log_capable_single_fetch (c : Cluster) (p : Params)
    (r pods : ResourceDescriptor)
    (hfr : c.findResource p.kind p.api_version = some r)
    (hfp : c.findResource "Pod" "v1" = some pods)
    (hlog : "log" ∈ r.subresources)
    (hsel : p.label_selectors = []) :
    (execute_module c p).2.countP Call.isLogFetch = 1 ∧
    (∀ call ∈ (execute_module c p).2, call.isGetByName = false) ∧
    (∀ call ∈ (execute_module c p).2, call.isListPods = false) := by
  have hjoin : String.intercalate "," p.label_selectors = "" := by rw [hsel]; rfl
  have h1 := execute_module_log_path c p r pods hfr hfp hlog (Or.inr hjoin)
  rw [hjoin, listAndLog_empty_selector] at h1
  have h2 : (execute_module c p).2 = preTrace p ++
      [Call.logFetch r p.name p.nspace (if optTruthy p.container then p.container else none)] := by
    rw [h1]
    exact logPhase_trace c p r p.name (preTrace p)
  refine ⟨?_, ?_, ?_⟩
  · rw [h2]
    simp [preTrace, Call.isLogFetch]
  · intro call hc
    rw [h2] at hc
    simp [preTrace] at hc
    rcases hc with rfl | rfl | rfl | rfl <;> rfl
  · intro call hc
    rw [h2] at hc
    simp [preTrace] at hc
    rcases hc with rfl | rfl | rfl | rfl <;> rfl

/-- C5 witness: a Pod invocation against the concrete cluster makes exactly
one log fetch and neither gets nor lists. -/
theorem c5_log_capable_single_fetch_witness :
    clusterC1.findResource "Pod" "v1" = some podDesc ∧ "log" ∈ podDesc.subresources ∧
    ((execute_module clusterC1
        ⟨"Pod", "v1", some "example-1abcd", some "testing", none, []⟩).2.countP
      Call.isLogFetch = 1 ∧
    (∀ call ∈ (execute_module clusterC1
        ⟨"Pod", "v1", some "example-1abcd", some "testing", none, []⟩).2,
      call.isGetByName = false) ∧
    (∀ call ∈ (execute_module clusterC1
        ⟨"Pod", "v1", some "example-1abcd", some "testing", none, []⟩).2,
      call.isListPods = false)) :=
  ⟨rfl, by decide,
    c5_log_capable_single_fetch clusterC1
      ⟨"Pod", "v1", some "example-1abcd", some "testing", none, []⟩
      podDesc podDesc rfl rfl (by decide) rfl⟩

/-- C4: whenever the active selector string (caller-supplied, or derived
from the named instance of a resource without the log subresource) is
non-empty and the Pod list call for the parameter namespace returns no
items, `execute_module` fails with a message containing the namespace and
the selector string verbatim, and no log fetch is performed. -/
theorem c4_selector_matches_nothing (c : Cluster) (p : Params)
    (r pods : ResourceDescriptor) (ns s : String)
    (hfr : c.findResource p.kind p.api_version = some r)
    (hfp : c.findResource "Pod" "v1" = some pods)
    (hns : p.nspace = some ns)
    (hpath :
      ("log" ∈ r.subresources ∧ optTruthy p.name = false ∧
        s = String.intercalate "," p.label_selectors) ∨
      ("log" ∉ r.subresources ∧ optTruthy p.name = true ∧
        String.intercalate "," p.label_selectors = "" ∧
        ∃ inst sels, c.getInstance r (p.name.getD "") p.nspace = .ok inst ∧
          extract_selectors inst = .ok sels ∧ s = String.intercalate "," sels))
    (hs : s ≠ "")
    (hlist : c.listPods p.nspace s = .ok ⟨[]⟩) :
    (∃ msg, (execute_module c p).1 = .error (.failMsg msg) ∧
      (∃ u v, msg = u ++ ns ++ v) ∧ (∃ u v, msg = u ++ s ++ v)) ∧
    ∀ call ∈ (execute_module c p).2, call.isLogFetch = false := by
  have build : ∀ tr : List Call,
      execute_module c p =
        (.error (.failMsg ("No pods in namespace " ++ pyFmtOpt p.nspace ++
          " matched selector " ++ s)), tr) →
      (∀ x ∈ tr, x.isLogFetch = false) →
      ((∃ msg, (execute_module c p).1 = .error (.failMsg msg) ∧
        (∃ u v, msg = u ++ ns ++ v) ∧ (∃ u v, msg = u ++ s ++ v)) ∧
       ∀ call ∈ (execute_module c p).2, call.isLogFetch = false) := by
    intro tr heq htr
    refine ⟨⟨"No pods in namespace " ++ pyFmtOpt p.nspace ++ " matched selector " ++ s,
      by rw [heq],
      ⟨"No pods in namespace ", " matched selector " ++ s, ?_⟩,
      ⟨"No pods in namespace " ++ pyFmtOpt p.nspace ++ " matched selector ", "", ?_⟩⟩, ?_⟩
    · rw [hns]
      apply String.ext
      simp [pyFmtOpt]
    · apply String.ext
      simp
    · intro call hc
      rw [heq] at hc
      exact htr call hc
  rcases hpath with ⟨hlog, hnm, hseq⟩ | ⟨hlog, hnm, hjoin, inst, sels, hget, hext, hseq⟩
  · have h1 := execute_module_log_path c p r pods hfr hfp hlog (Or.inl hnm)
    rw [← hseq] at h1
    rw [listAndLog_no_match c p pods r p.name s (preTrace p) hs hlist] at h1
    refine build _ h1 ?_
    intro x hx
    simp [preTrace] at hx
    rcases hx with rfl | rfl | rfl | rfl <;> rfl
  · have h1 := execute_module_derived_path c p r pods inst sels hfr hfp hlog hnm hjoin hget hext
    rw [← hseq] at h1
    rw [listAndLog_no_match c p pods pods p.name s _ hs hlist] at h1
    refine build _ h1 ?_
    intro x hx
    simp [preTrace] at hx
    rcases hx with rfl | rfl | rfl | rfl | rfl <;> rfl

/-- C4 witness: a selector matching nothing in the concrete cluster yields
the not-found failure naming namespace and selector, with no log fetch. -/
theorem c4_selector_matches_nothing_witness :
    clusterC1.listPods (some "testing") "app=nomatch" = .ok ⟨[]⟩ ∧
    ((∃ msg, (execute_module clusterC1
        ⟨"Pod", "v1", none, some "testing", none, ["app=nomatch"]⟩).1 =
          .error (.failMsg msg) ∧
      (∃ u v, msg = u ++ "testing" ++ v) ∧ (∃ u v, msg = u ++ "app=nomatch" ++ v)) ∧
    ∀ call ∈ (execute_module clusterC1
        ⟨"Pod", "v1", none, some "testing", none, ["app=nomatch"]⟩).2,
      call.isLogFetch = false) :=
  ⟨rfl,
    c4_selector_matches_nothing clusterC1
      ⟨"Pod", "v1", none, some "testing", none, ["app=nomatch"]⟩
      podDesc podDesc "testing" "app=nomatch" rfl rfl rfl
      (Or.inl ⟨by decide, rfl, rfl⟩) (by decide) rfl⟩

/-- C7: when matchLabels and/or matchExpressions is populated, extraction
returns the matchLabels clauses first (one key=value per entry, in mapping
order) followed by the matchExpressions clauses in their given order. -/
theorem c7_labels_before_expressions (inst : ResourceInstance) (sel : Selector)
    (ml : List (String × String)) (es : List MatchExpression) (ces : List String)
    (hsel : inst.spec.selector = some sel)
    (hml : (selAttr sel "matchLabels").getD (.labels []) = .labels ml)
    (hme : (selAttr sel "matchExpressions").getD (.exprs []) = .exprs es)
    (hpop : ml ≠ [] ∨ es ≠ [])
    (hces : es.mapM formatExpr = .ok ces) :
    extract_selectors inst = .ok (ml.map (fun kv => kv.1 ++ "=" ++ kv.2) ++ ces) := by
  have hA : attrTruthy (selAttr sel "matchLabels") = !ml.isEmpty := by
    cases hA0 : selAttr sel "matchLabels" with
    | none =>
        rw [hA0] at hml
        simp only [Option.getD_none] at hml
        injection hml with h
        rw [← h]
        rfl
    | some v =>
        rw [hA0] at hml
        simp only [Option.getD_some] at hml
        rw [hml]
        rfl
  have hB : attrTruthy (selAttr sel "matchExpressions") = !es.isEmpty := by
    cases hB0 : selAttr sel "matchExpressions" with
    | none =>
        rw [hB0] at hme
        simp only [Option.getD_none] at hme
        injection hme with h
        rw [← h]
        rfl
    | some v =>
        rw [hB0] at hme
        simp only [Option.getD_some] at hme
        rw [hme]
        rfl
  simp only [extract_selectors, hsel]
  rw [hA, hB, hml, hme]
  rcases ml with _ | ⟨kv, ml'⟩ <;> rcases es with _ | ⟨e, es'⟩
  · rcases hpop with h | h <;> exact absurd rfl h
  · simp_all [labelsOf, exprsOf, Bind.bind, Except.bind, pure, Except.pure]
  · injection hces with h
    subst h
    simp_all [labelsOf, exprsOf, Bind.bind, Except.bind, pure, Except.pure]
  · simp_all [labelsOf, exprsOf, Bind.bind, Except.bind, pure, Except.pure]

/-- C7 witness: matchLabels a=1 with a matchExpressions Exists entry for b
yields exactly ["a=1", "b"] in that order. -/
theorem c7_labels_before_expressions_witness :
    [(⟨"b", "Exists", []⟩ : MatchExpression)].mapM formatExpr = .ok ["b"] ∧
    extract_selectors
      ⟨"apps", "v1", "Deployment",
        ⟨some ⟨[("matchLabels", SelectorVal.labels [("a", "1")]),
                ("matchExpressions", SelectorVal.exprs [⟨"b", "Exists", []⟩])]⟩⟩⟩ =
      .ok ["a=1", "b"] := by
  refine ⟨rfl, ?_⟩
  rw [c7_labels_before_expressions _
    ⟨[("matchLabels", SelectorVal.labels [("a", "1")]),
      ("matchExpressions", SelectorVal.exprs [⟨"b", "Exists", []⟩])]⟩
    [("a", "1")] [⟨"b", "Exists", []⟩] ["b"] rfl rfl rfl (Or.inl (by decide)) rfl]
  rfl
